import Mathlib

/-!
Shallow embedding of the single screen in `src/app/index.tsx` of the
`expofilesystem-contenturi-empty` fixture.

The screen holds four pieces of React state (`fileObject`, `fileInfo`,
`errorText`, `isLoading`) and two async handlers:

* `loadFileFromAsset` (Operation 1): resolves a bundled PDF asset, builds a
  `FileSystem.File` handle from `asset.localUri || asset.uri`, checks the
  handle's existence flag and stores it in state; all failures are caught,
  rendered as `Error: <message>\n\n<JSON dump>` and alerted.
* `openFileWithIntent` (Operation 2): guards on a loaded handle and on
  `Platform.OS === 'android'`, checks the handle's `contentUri` for JS
  truthiness, and if present calls
  `IntentLauncher.startActivityAsync('android.intent.action.VIEW', ...)`.

External collaborators (asset download, the `FileSystem.File` constructor,
the intent launcher) are modelled as oracle parameters; the actual state
transitions, branch conditions, user-visible alerts and intent invocations
are translated literally from the source.
-/

/-- The asset object produced by `Asset.fromModule(...)` after
`await asset.downloadAsync()`: a remote `uri` and an optional cached
`localUri` (the other logged fields play no role in the control flow). -/
structure Asset where
  uri : String
  localUri : Option String
  name : String
  type : Option String
  hash : Option String
deriving DecidableEq

/-- A `FileSystem.File` handle as read by the screen: `uri`, `name`, `size`,
`type`, the existence flag, and the optional Android `contentUri` field
(the property under test; `none` models an absent JS property). -/
structure FileHandle where
  uri : String
  name : String
  size : Nat
  type : String
  «exists» : Bool
  contentUri : Option String
deriving DecidableEq

/-- A thrown JS error as the catch blocks observe it: its `message` and the
text `JSON.stringify(error, null, 2)` produces for it. -/
structure JsError where
  message : String
  json : String
deriving DecidableEq

/-- `new Error(m)`: plain `Error` objects have no enumerable properties, so
`JSON.stringify(error, null, 2)` renders them as `\x7b\x7d`. -/
def jsNewError (m : String) : JsError :=
  { message := m, json := "\x7b\x7d" }

/-- JS `a || b` on a possibly-absent string `a`: `b` when `a` is
`undefined`/`null` or the empty string, else `a`. -/
def jsOr : Option String → String → String
  | none, b => b
  | some a, b => if a = "" then b else a

/-- JS falsiness of a possibly-absent string, as in `if (!x.contentUri)`:
absent and the empty string are falsy, every other string is truthy. -/
def jsFalsy : Option String → Bool
  | none => true
  | some s => s = ""

/-- The React state of the screen. -/
structure ScreenState where
  fileObject : Option FileHandle
  fileInfo : String
  errorText : String
  isLoading : Bool
deriving DecidableEq

/-- Outcome of one run of `loadFileFromAsset`: the final state and the
`Alert.alert(title, body)` calls it issued. -/
structure LoadResult where
  state : ScreenState
  alerts : List (String × String)
deriving DecidableEq

/-- One call to `IntentLauncher.startActivityAsync(action, params)`. -/
structure IntentCall where
  action : String
  data : String
  flags : Nat
  type : String
deriving DecidableEq

/-- Outcome of one run of `openFileWithIntent`: the final state, the intent
invocations issued, and the alerts shown. -/
structure OpenResult where
  state : ScreenState
  intentCalls : List IntentCall
  alerts : List (String × String)
deriving DecidableEq

/-- The synchronous prefix of `loadFileFromAsset`, everything executed
before the first `await` (the download): `setErrorText('')`,
`setFileInfo('')`, `setFileObject(null)`, then `setIsLoading(true)`. -/
def loadFirstPhase (s : ScreenState) : ScreenState :=
  { s with errorText := "", fileInfo := "", fileObject := none, isLoading := true }

/-- The `try` block of `loadFileFromAsset` from the download onward, as an
`Except` computation: await the download (propagating its rejection), pick
`asset.localUri || asset.uri`, throw `No valid URI from asset` when that is
falsy, build the file handle via the constructor oracle `mkFile`, throw
`File does not exist` when its existence flag is false, else return it. -/
def loadTryBody (mkFile : String → FileHandle) (download : Except JsError Asset) :
    Except JsError FileHandle :=
  match download with
  | .error e => .error e
  | .ok asset =>
    let fileUri := jsOr asset.localUri asset.uri
    if fileUri = "" then
      .error (jsNewError "No valid URI from asset")
    else
      let file := mkFile fileUri
      if file.«exists» = false then
        .error (jsNewError "File does not exist")
      else
        .ok file

/-- Resumption of `loadFileFromAsset` after the synchronous prefix: run the
`try` body, on success store the handle and alert `File Loaded`, on any
caught error set `errorText` to the message plus the JSON detail dump and
alert `Error`; the `finally` clause resets `isLoading` on both paths. -/
def loadResume (mkFile : String → FileHandle) (download : Except JsError Asset)
    (s1 : ScreenState) : LoadResult :=
  match loadTryBody mkFile download with
  | .ok file =>
    { state := { s1 with fileObject := some file, isLoading := false },
      alerts := [("File Loaded",
        "File object created from asset\nName: " ++ file.name ++
          "\nSize: " ++ toString file.size ++ " bytes\nType: " ++ file.type)] }
  | .error e =>
    { state := { s1 with
        errorText := "Error: " ++ e.message ++ "\n\n" ++ e.json,
        isLoading := false },
      alerts := [("Error", "Failed to load file: " ++ e.message)] }

/-- Operation 1, `loadFileFromAsset`: the synchronous clearing prefix
followed by the awaited body with its catch/finally handling. -/
def loadFileFromAsset (mkFile : String → FileHandle) (download : Except JsError Asset)
    (s : ScreenState) : LoadResult :=
  loadResume mkFile download (loadFirstPhase s)

/-- The error string of the missing-`contentUri` branch of Operation 2. -/
def contentUriMissingError : String :=
  "contentUri is missing from the File object. This is the bug we are testing!"

/-- Operation 2, `openFileWithIntent`: guard `if (!fileObject)` with the
load-first alert; guard `Platform.OS !== 'android'` with the Android-only
notice; inside the `try`, clear `errorText`, early-return with the specific
missing-`contentUri` error when the field is JS-falsy, else invoke
`IntentLauncher.startActivityAsync` with the fixed action, the handle's
`contentUri` as data, flag `1` and MIME type `application/pdf`, alerting
`Success` when it resolves and the caught-error rendering when it rejects. -/
def openFileWithIntent (platformOS : String) (intentResult : Except JsError Unit)
    (s : ScreenState) : OpenResult :=
  match s.fileObject with
  | none =>
    { state := s, intentCalls := [],
      alerts := [("No File", "Please load the file first")] }
  | some fileWithUri =>
    if platformOS ≠ "android" then
      { state := { s with errorText := "IntentLauncher is only available on Android" },
        intentCalls := [],
        alerts := [("Android Only", "IntentLauncher is only available on Android")] }
    else
      let s1 := { s with errorText := "" }
      let missing : OpenResult :=
        { state := { s1 with errorText := contentUriMissingError },
          intentCalls := [],
          alerts := [("ContentURI Missing", contentUriMissingError)] }
      match fileWithUri.contentUri with
      | none => missing
      | some u =>
        if u = "" then missing
        else
          let call : IntentCall :=
            { action := "android.intent.action.VIEW", data := u,
              flags := 1, type := "application/pdf" }
          match intentResult with
          | .ok _ =>
            { state := s1, intentCalls := [call],
              alerts := [("Success", "PDF opened with IntentLauncher")] }
          | .error e =>
            { state := { s1 with
                errorText := "Error opening file: " ++ e.message ++ "\n\n" ++ e.json },
              intentCalls := [call],
              alerts := [("Error", "Failed to open PDF: " ++ e.message)] }

/-- Modelled from the spec: the external `FileSystem.File` constructor of the
expo-file-system dependency, whose code is not part of this repository (the
screen is only its caller). Per the spec's documented defect, on Android a
handle constructed from a bundle-sourced asset URI exposes uri, name, size,
type and the existence flag, but its alternate-access field `contentUri` is
absent. -/
def fileFromAssetUri (uri nm ty : String) (sz : Nat) (ex : Bool) : FileHandle :=
  { uri := uri, name := nm, size := sz, type := ty, «exists» := ex, contentUri := none }


/-- A concrete handle as the fixture observes it: metadata populated,
existence flag true, contentUri absent. -/
def sampleHandle : FileHandle :=
  ⟨"file:///a.pdf", "a.pdf", 7, "application/pdf", true, none⟩

/-- The same handle with the hypothetical populated contentUri of the
spec's scenario. -/
def sampleHandleWithUri : FileHandle :=
  ⟨"file:///a.pdf", "a.pdf", 7, "application/pdf", true, some "content://provider/files/sample.pdf"⟩

/-- A screen state holding a given handle slot and otherwise idle. -/
def sampleState (f : Option FileHandle) : ScreenState :=
  { fileObject := f, fileInfo := "", errorText := "", isLoading := false }

/-- Every successful run of the try body returns a handle built by the
constructor oracle on some URI. -/
theorem loadTryBody_ok_shape (mkFile : String → FileHandle)
    (download : Except JsError Asset) (f : FileHandle)
    (h : loadTryBody mkFile download = .ok f) : ∃ u, f = mkFile u := by
  cases download with
  | error e => simp [loadTryBody] at h
  | ok a =>
    simp only [loadTryBody] at h
    split at h
    · simp at h
    · split at h
      · simp at h
      · exact ⟨jsOr a.localUri a.uri, by simpa using h.symm⟩

/-- C4: with no file handle in state, Operation 2 shows the load-first
notice and returns at once: the state is untouched, no intent call is made,
and the result does not depend on the platform or on the intent oracle. -/
theorem c4_no_file_yields_load_first_notice
    (platformOS : String) (intentResult : Except JsError Unit) (s : ScreenState)
    (h : s.fileObject = none) :
    openFileWithIntent platformOS intentResult s =
      { state := s, intentCalls := [],
        alerts := [("No File", "Please load the file first")] } := by
  simp [openFileWithIntent, h]

theorem c4_no_file_yields_load_first_notice_witness :
    openFileWithIntent "android" (.ok ()) (sampleState none) =
      { state := sampleState none, intentCalls := [],
        alerts := [("No File", "Please load the file first")] } :=
  c4_no_file_yields_load_first_notice "android" (.ok ()) (sampleState none) rfl

/-- C5: with a handle in state but a non-Android platform, Operation 2 sets
the Android-only notice and returns without any intent call; the result is
the same for every handle, so the contentUri field is never consulted. -/
theorem c5_non_android_yields_not_supported_notice
    (platformOS : String) (intentResult : Except JsError Unit) (s : ScreenState)
    (file : FileHandle) (hf : s.fileObject = some file) (hp : platformOS ≠ "android") :
    openFileWithIntent platformOS intentResult s =
      { state := { s with errorText := "IntentLauncher is only available on Android" },
        intentCalls := [],
        alerts := [("Android Only", "IntentLauncher is only available on Android")] } := by
  simp [openFileWithIntent, hf, hp]

theorem c5_non_android_yields_not_supported_notice_witness :
    openFileWithIntent "ios" (.ok ()) (sampleState (some sampleHandle)) =
      { state := { sampleState (some sampleHandle) with
                     errorText := "IntentLauncher is only available on Android" },
        intentCalls := [],
        alerts := [("Android Only", "IntentLauncher is only available on Android")] } :=
  c5_non_android_yields_not_supported_notice "ios" (.ok ())
    (sampleState (some sampleHandle)) sampleHandle rfl (by decide)

/-- C2: with a handle in state on Android whose contentUri is absent or
empty, Operation 2 sets the specific missing-contentUri error text, shows
the matching alert, makes no intent call, and leaves every other state
field unchanged: an early return, not a caught exception. -/
theorem c2_missing_contentUri_early_return
    (platformOS : String) (intentResult : Except JsError Unit) (s : ScreenState)
    (file : FileHandle) (hf : s.fileObject = some file) (hp : platformOS = "android")
    (hc : file.contentUri = none ∨ file.contentUri = some "") :
    openFileWithIntent platformOS intentResult s =
      { state := { s with errorText := contentUriMissingError },
        intentCalls := [],
        alerts := [("ContentURI Missing", contentUriMissingError)] } := by
  subst hp
  rcases hc with h | h <;> simp [openFileWithIntent, hf, h]

theorem c2_missing_contentUri_early_return_witness :
    openFileWithIntent "android" (.ok ()) (sampleState (some sampleHandle)) =
      { state := { sampleState (some sampleHandle) with
                     errorText := contentUriMissingError },
        intentCalls := [],
        alerts := [("ContentURI Missing", contentUriMissingError)] } :=
  c2_missing_contentUri_early_return "android" (.ok ())
    (sampleState (some sampleHandle)) sampleHandle rfl rfl (Or.inl rfl)

/-- C3: with a handle in state on Android whose contentUri is a non-empty
string, Operation 2 issues exactly one intent call carrying that exact
value, the fixed action `android.intent.action.VIEW`, flag `1` and MIME
type `application/pdf`; it alerts Success with a cleared errorText exactly
when the call resolves, and renders the caught rejection otherwise. -/
theorem c3_populated_contentUri_calls_intent_once
    (platformOS : String) (intentResult : Except JsError Unit) (s : ScreenState)
    (file : FileHandle) (u : String)
    (hf : s.fileObject = some file) (hp : platformOS = "android")
    (hc : file.contentUri = some u) (hu : u ≠ "") :
    (openFileWithIntent platformOS intentResult s).intentCalls =
      [{ action := "android.intent.action.VIEW", data := u, flags := 1, type := "application/pdf" }] ∧
    (intentResult = .ok () →
      openFileWithIntent platformOS intentResult s =
        { state := { s with errorText := "" },
          intentCalls :=
            [{ action := "android.intent.action.VIEW", data := u, flags := 1, type := "application/pdf" }],
          alerts := [("Success", "PDF opened with IntentLauncher")] }) ∧
    (∀ e, intentResult = .error e →
      openFileWithIntent platformOS intentResult s =
        { state := { s with
                       errorText := "Error opening file: " ++ e.message ++ "\n\n" ++ e.json },
          intentCalls :=
            [{ action := "android.intent.action.VIEW", data := u, flags := 1, type := "application/pdf" }],
          alerts := [("Error", "Failed to open PDF: " ++ e.message)] }) := by
  subst hp
  refine ⟨?_, ?_, ?_⟩
  · cases intentResult <;> simp [openFileWithIntent, hf, hc, hu]
  · rintro rfl
    simp [openFileWithIntent, hf, hc, hu]
  · rintro e rfl
    simp [openFileWithIntent, hf, hc, hu]

theorem c3_populated_contentUri_calls_intent_once_witness :
    (openFileWithIntent "android" (.ok ()) (sampleState (some sampleHandleWithUri))).intentCalls =
      [{ action := "android.intent.action.VIEW", data := "content://provider/files/sample.pdf",
         flags := 1, type := "application/pdf" }] ∧
    (openFileWithIntent "android" (.ok ()) (sampleState (some sampleHandleWithUri))).alerts =
      [("Success", "PDF opened with IntentLauncher")] := by
  have h := c3_populated_contentUri_calls_intent_once "android" (.ok ())
    (sampleState (some sampleHandleWithUri)) sampleHandleWithUri
    "content://provider/files/sample.pdf" rfl rfl rfl (by decide)
  refine ⟨h.1, ?_⟩
  rw [h.2.1 rfl]

/-- A concrete downloaded asset with a populated local cache URI. -/
def sampleAsset : Asset :=
  { uri := "https://cdn/sample.pdf", localUri := some "file:///cache/sample.pdf",
    name := "sample", type := some "pdf", hash := some "abc" }

/-- A concrete handle whose existence flag is false. -/
def ghostHandle : FileHandle :=
  ⟨"file:///cache/sample.pdf", "a.pdf", 7, "application/pdf", false, none⟩

/-- C1: running Operation 1 through the spec-modelled Android File
constructor for bundle-sourced assets, every handle it ends up storing in
state has an absent contentUri field — the defect the fixture documents. -/
theorem c1_contentUri_absent_after_successful_load
    (s : ScreenState) (download : Except JsError Asset)
    (nm ty : String) (sz : Nat) (ex : Bool) (h : FileHandle)
    (hsucc : (loadFileFromAsset (fun u => fileFromAssetUri u nm ty sz ex)
      download s).state.fileObject = some h) :
    h.contentUri = none := by
  simp only [loadFileFromAsset, loadResume] at hsucc
  split at hsucc
  case _ file htb =>
    simp only [ScreenState.mk.injEq] at hsucc
    simp at hsucc
    obtain ⟨u, hfu⟩ := loadTryBody_ok_shape _ _ _ htb
    subst hsucc
    rw [hfu]
    rfl
  case _ e htb =>
    simp [loadFirstPhase] at hsucc

theorem c1_contentUri_absent_after_successful_load_witness :
    (fileFromAssetUri "file:///cache/sample.pdf" "a.pdf" "application/pdf" 7 true).contentUri
      = none :=
  c1_contentUri_absent_after_successful_load (sampleState none) (.ok sampleAsset)
    "a.pdf" "application/pdf" 7 true
    (fileFromAssetUri "file:///cache/sample.pdf" "a.pdf" "application/pdf" 7 true)
    (by decide)

/-- C6: within Operation 1, the handle is built from the asset's local URI
when that is JS-truthy, otherwise from the remote URI; when neither URI is
usable the run fails with the No-valid-URI error, no handle reaches the
state, and the error text carries that message. -/
theorem c6_uri_preference_and_no_valid_source
    (mkFile : String → FileHandle) (a : Asset) (s : ScreenState) :
    (∀ l, a.localUri = some l → l ≠ "" →
      loadTryBody mkFile (.ok a) =
        (if (mkFile l).«exists» = false then .error (jsNewError "File does not exist")
         else .ok (mkFile l))) ∧
    (jsFalsy a.localUri = true → a.uri ≠ "" →
      loadTryBody mkFile (.ok a) =
        (if (mkFile a.uri).«exists» = false then .error (jsNewError "File does not exist")
         else .ok (mkFile a.uri))) ∧
    (jsFalsy a.localUri = true → a.uri = "" →
      loadTryBody mkFile (.ok a) = .error (jsNewError "No valid URI from asset") ∧
      (loadFileFromAsset mkFile (.ok a) s).state.fileObject = none ∧
      (loadFileFromAsset mkFile (.ok a) s).state.errorText =
        "Error: No valid URI from asset\n\n\x7b\x7d") := by
  refine ⟨?_, ?_, ?_⟩
  · intro l hl hne
    simp [loadTryBody, jsOr, hl, hne]
  · intro hfal hne
    cases hl : a.localUri with
    | none => simp [loadTryBody, jsOr, hl, hne]
    | some l =>
      rw [hl] at hfal
      simp [jsFalsy] at hfal
      subst hfal
      simp [loadTryBody, jsOr, hl, hne]
  · intro hfal hemp
    have htb : loadTryBody mkFile (.ok a) = .error (jsNewError "No valid URI from asset") := by
      cases hl : a.localUri with
      | none => simp [loadTryBody, jsOr, hl, hemp]
      | some l =>
        rw [hl] at hfal
        simp [jsFalsy] at hfal
        subst hfal
        simp [loadTryBody, jsOr, hl, hemp]
    refine ⟨htb, ?_, ?_⟩ <;> simp [loadFileFromAsset, loadResume, loadFirstPhase, htb, jsNewError]

theorem c6_uri_preference_and_no_valid_source_witness :
    loadTryBody (fun _ => sampleHandle) (.ok sampleAsset) = .ok sampleHandle := by
  have h := c6_uri_preference_and_no_valid_source (fun _ => sampleHandle)
    sampleAsset (sampleState none)
  have h1 := h.1 "file:///cache/sample.pdf" rfl (by decide)
  rw [h1]
  rfl

/-- C7: within Operation 1, a constructed handle whose existence flag is
false aborts the run with the File-does-not-exist error; every error the
try body yields is caught at the operation boundary and rendered in the
final state as the message plus the structured JSON detail dump together
with a user-visible alert — the run returns normally. -/
theorem c7_nonexistence_and_error_rendering
    (mkFile : String → FileHandle) (download : Except JsError Asset) (s : ScreenState) :
    (∀ a, download = .ok a → jsOr a.localUri a.uri ≠ "" →
      (mkFile (jsOr a.localUri a.uri)).«exists» = false →
      loadTryBody mkFile download = .error (jsNewError "File does not exist")) ∧
    (∀ e, loadTryBody mkFile download = .error e →
      loadFileFromAsset mkFile download s =
        { state := { fileObject := none, fileInfo := "",
                     errorText := "Error: " ++ e.message ++ "\n\n" ++ e.json,
                     isLoading := false },
          alerts := [("Error", "Failed to load file: " ++ e.message)] }) := by
  constructor
  · rintro a rfl hne hex
    simp [loadTryBody, hne, hex]
  · intro e he
    simp [loadFileFromAsset, loadResume, loadFirstPhase, he]

theorem c7_nonexistence_and_error_rendering_witness :
    loadTryBody (fun _ => ghostHandle) (.ok sampleAsset) =
      .error (jsNewError "File does not exist") ∧
    (loadFileFromAsset (fun _ => ghostHandle) (.ok sampleAsset) (sampleState none)).alerts =
      [("Error", "Failed to load file: File does not exist")] := by
  have h := c7_nonexistence_and_error_rendering (fun _ => ghostHandle)
    (.ok sampleAsset) (sampleState none)
  have h1 := h.1 sampleAsset rfl (by decide) (by decide)
  refine ⟨h1, ?_⟩
  rw [h.2 (jsNewError "File does not exist") h1]
  rfl

/-- C8: Operation 2 never writes the handle slot, the info text or the
loading flag on any of its paths (only errorText may change), and
Operation 1 stores a non-null handle exactly when its try body succeeds,
exactly once with exactly that handle. -/
theorem c8_handle_slot_frame
    (platformOS : String) (intentResult : Except JsError Unit) (s : ScreenState)
    (mkFile : String → FileHandle) (download : Except JsError Asset) :
    ((openFileWithIntent platformOS intentResult s).state.fileObject = s.fileObject ∧
     (openFileWithIntent platformOS intentResult s).state.fileInfo = s.fileInfo ∧
     (openFileWithIntent platformOS intentResult s).state.isLoading = s.isLoading) ∧
    (∀ f, (loadFileFromAsset mkFile download s).state.fileObject = some f ↔
      loadTryBody mkFile download = .ok f) := by
  constructor
  · cases hf : s.fileObject with
    | none => simp [openFileWithIntent, hf]
    | some file =>
      by_cases hp : platformOS = "android"
      · subst hp
        cases hc : file.contentUri with
        | none => simp [openFileWithIntent, hf, hc]
        | some u =>
          by_cases hu : u = ""
          · simp [openFileWithIntent, hf, hc, hu]
          · cases intentResult <;> simp [openFileWithIntent, hf, hc, hu]
      · simp [openFileWithIntent, hf, hp]
  · intro f
    simp only [loadFileFromAsset, loadResume]
    cases htb : loadTryBody mkFile download <;> simp [loadFirstPhase]

/-- C9: every run of Operation 1 ends with the loading flag reset to false;
every error its try body yields is rendered as the message plus the JSON
detail dump and alerted; and a rejection of the intent invocation in
Operation 2 is likewise caught and rendered — no failure escapes either
operation. -/
theorem c9_failures_caught_and_isLoading_reset
    (mkFile : String → FileHandle) (download : Except JsError Asset) (s : ScreenState)
    (platformOS : String) (intentResult : Except JsError Unit) :
    (loadFileFromAsset mkFile download s).state.isLoading = false ∧
    (∀ e, loadTryBody mkFile download = .error e →
      (loadFileFromAsset mkFile download s).state.errorText =
        "Error: " ++ e.message ++ "\n\n" ++ e.json ∧
      (loadFileFromAsset mkFile download s).alerts =
        [("Error", "Failed to load file: " ++ e.message)]) ∧
    (∀ file u e, s.fileObject = some file → platformOS = "android" →
      file.contentUri = some u → u ≠ "" → intentResult = .error e →
      (openFileWithIntent platformOS intentResult s).state.errorText =
        "Error opening file: " ++ e.message ++ "\n\n" ++ e.json ∧
      (openFileWithIntent platformOS intentResult s).alerts =
        [("Error", "Failed to open PDF: " ++ e.message)]) := by
  refine ⟨?_, ?_, ?_⟩
  · simp only [loadFileFromAsset, loadResume]
    cases loadTryBody mkFile download <;> simp
  · intro e he
    simp [loadFileFromAsset, loadResume, loadFirstPhase, he]
  · rintro file u e hf rfl hc hu rfl
    simp [openFileWithIntent, hf, hc, hu]

theorem c9_failures_caught_and_isLoading_reset_witness :
    (loadFileFromAsset (fun _ => sampleHandle) (.error (jsNewError "boom"))
      (sampleState none)).state.isLoading = false ∧
    (loadFileFromAsset (fun _ => sampleHandle) (.error (jsNewError "boom"))
      (sampleState none)).state.errorText = "Error: boom\n\n\x7b\x7d" := by
  have h := c9_failures_caught_and_isLoading_reset (fun _ => sampleHandle)
    (.error (jsNewError "boom")) (sampleState none) "android" (.ok ())
  refine ⟨h.1, ?_⟩
  rw [(h.2.1 (jsNewError "boom") rfl).1]
  rfl

/-- C10: the synchronous prefix of Operation 1 clears errorText, fileInfo
and the handle slot before the first suspension point, the whole run
factors through that prefix, the handle slot ends up populated exactly on
success of the try body and null after every failure, and from any state
whose handle slot is null Operation 2 takes the load-first path. -/
theorem c10_sync_clear_and_no_stale_handle
    (s : ScreenState) (mkFile : String → FileHandle) (download : Except JsError Asset) :
    ((loadFirstPhase s).errorText = "" ∧ (loadFirstPhase s).fileInfo = "" ∧
     (loadFirstPhase s).fileObject = none) ∧
    loadFileFromAsset mkFile download s = loadResume mkFile download (loadFirstPhase s) ∧
    (∀ f, loadTryBody mkFile download = .ok f →
      (loadFileFromAsset mkFile download s).state.fileObject = some f) ∧
    (∀ e, loadTryBody mkFile download = .error e →
      (loadFileFromAsset mkFile download s).state.fileObject = none) ∧
    (∀ platformOS intentResult s', s'.fileObject = none →
      openFileWithIntent platformOS intentResult s' =
        { state := s', intentCalls := [],
          alerts := [("No File", "Please load the file first")] }) := by
  refine ⟨⟨rfl, rfl, rfl⟩, rfl, ?_, ?_, ?_⟩
  · intro f hf
    simp [loadFileFromAsset, loadResume, hf]
  · intro e he
    simp [loadFileFromAsset, loadResume, loadFirstPhase, he]
  · intro platformOS intentResult s' h
    simp [openFileWithIntent, h]

theorem c10_sync_clear_and_no_stale_handle_witness :
    (loadFileFromAsset (fun _ => sampleHandle) (.error (jsNewError "network"))
      { fileObject := some sampleHandle, fileInfo := "i", errorText := "e",
        isLoading := false }).state.fileObject = none ∧
    (loadFirstPhase { fileObject := some sampleHandle, fileInfo := "i", errorText := "e", isLoading := false }).fileObject = none := by
  have h := c10_sync_clear_and_no_stale_handle
    { fileObject := some sampleHandle, fileInfo := "i", errorText := "e", isLoading := false }
    (fun _ => sampleHandle) (.error (jsNewError "network"))
  exact ⟨h.2.2.2.1 (jsNewError "network") rfl, h.1.2.2⟩
